import Mathlib

/-!
Shallow embedding of the bircapcha Telegram captcha bot (src/bot/main.py).

The durable SQLite store (tables `users` and `activity_log`) is modelled as
lists of rows; `CURRENT_TIMESTAMP` is an explicit `now : Nat` argument.
The in-memory `self.user_captcha` dict (keyed by user id) is an association
list with python-dict update semantics.  Randomness (`random.choice`,
`random.shuffle`) and Gateway replies (Telegram API calls and the message id
returned by `send_message`) are oracle parameters; outbound Telegram calls
are recorded as a list of `Action`s.
-/

namespace Bircapcha

/-- A row of the `users` table (see `DatabaseManager.ensure_database`):
primary key (user_id, chat_id); `captcha_passed` and `message_count` are
SQLite INTEGERs with DEFAULT 0. -/
structure UserRow where
  user_id : Int
  chat_id : Int
  username : String
  join_date : Nat
  last_activity : Nat
  captcha_passed : Nat
  message_count : Nat
deriving DecidableEq

/-- A row of the append-only `activity_log` table.  The AUTOINCREMENT `id`
column is modelled by the position in the list. -/
structure LogEntry where
  user_id : Int
  chat_id : Int
  action : String
  timestamp : Nat
deriving DecidableEq

/-- The durable store: both tables of the SQLite database. -/
structure Database where
  users : List UserRow
  activity_log : List LogEntry
deriving DecidableEq

/-- The SQL `WHERE user_id = ? AND chat_id = ?` predicate. -/
def rowKey (user_id chat_id : Int) (r : UserRow) : Bool :=
  r.user_id == user_id && r.chat_id == chat_id

/-- The first (and, under the primary-key invariant, only) `users` row for
(user_id, chat_id); models a `SELECT ... WHERE user_id = ? AND chat_id = ?`. -/
def find_user (db : Database) (user_id chat_id : Int) : Option UserRow :=
  db.users.find? (rowKey user_id chat_id)

/-- `UserActivityTracker.check_user_status` (success path; a storage
exception would yield the extra string "error", not modelled here since the
pure store cannot fail on read). -/
def check_user_status (db : Database) (user_id chat_id : Int) : String :=
  match find_user db user_id chat_id with
  | none => "new"
  | some r => if r.captcha_passed = 0 then "not_verified" else "verified"

/-- `UserActivityTracker.add_user`, success path.  `INSERT OR REPLACE` with
column list (user_id, username, chat_id, join_date, last_activity,
captcha_passed): the conflicting row is deleted and a fresh row inserted, so
`message_count` (absent from the column list) takes its DEFAULT 0 and
`captcha_passed` is reset to 0.  A `user_joined` log entry is appended. -/
def add_user (db : Database) (user_id : Int) (username : String) (chat_id : Int)
    (now : Nat) : Database :=
  { users := db.users.filter (fun r => !(rowKey user_id chat_id r)) ++
      [⟨user_id, chat_id, username, now, now, 0, 0⟩],
    activity_log := db.activity_log ++ [⟨user_id, chat_id, "user_joined", now⟩] }

/-- `UserActivityTracker.track_activity`, success path.  `UPDATE users SET
last_activity = CURRENT_TIMESTAMP, message_count = message_count + 1 WHERE
user_id = ? AND chat_id = ?` (touches nothing when no row matches), then
unconditionally appends a `message_sent` log entry. -/
def track_activity (db : Database) (user_id chat_id : Int) (now : Nat) : Database :=
  { users := db.users.map (fun r =>
      if rowKey user_id chat_id r then
        { r with last_activity := now, message_count := r.message_count + 1 }
      else r),
    activity_log := db.activity_log ++ [⟨user_id, chat_id, "message_sent", now⟩] }

/-- `UserActivityTracker.update_captcha_status`, success path.  `UPDATE users
SET captcha_passed = ?` with `1 if status == 'completed' else 0` on the
matching row (touches nothing when no row matches), then appends a
`captcha_<status>` log entry. -/
def update_captcha_status (db : Database) (user_id chat_id : Int) (status : String)
    (now : Nat) : Database :=
  { users := db.users.map (fun r =>
      if rowKey user_id chat_id r then
        { r with captcha_passed := if status = "completed" then 1 else 0 }
      else r),
    activity_log := db.activity_log ++
      [⟨user_id, chat_id, "captcha_" ++ status, now⟩] }

/-- Result of one store-writing call as seen by its caller: the database
afterwards, and whether an exception escaped to the caller. -/
structure TxResult where
  db : Database
  raised : Bool
deriving DecidableEq

/-- `UserActivityTracker.add_user` with failure injection.  The body is
`try: execute; execute; commit  except: log error; rollback`.  `failure =
some k` means the k-th step (0 = first INSERT, 1 = second INSERT,
2 = commit) raises: nothing was committed yet, so `conn.rollback()` restores
the pre-call database; the `except` clause only logs and does not re-raise,
so `raised` is `false` on every path. -/
def add_user_tx (db : Database) (user_id : Int) (username : String) (chat_id : Int)
    (now : Nat) (failure : Option Nat) : TxResult :=
  match failure with
  | none => ⟨add_user db user_id username chat_id now, false⟩
  | some _ => ⟨db, false⟩

/-- `UserActivityTracker.track_activity` with failure injection (same
try/except/rollback shape as `add_user_tx`). -/
def track_activity_tx (db : Database) (user_id chat_id : Int) (now : Nat)
    (failure : Option Nat) : TxResult :=
  match failure with
  | none => ⟨track_activity db user_id chat_id now, false⟩
  | some _ => ⟨db, false⟩

/-- `UserActivityTracker.update_captcha_status` with failure injection (same
try/except/rollback shape as `add_user_tx`). -/
def update_captcha_status_tx (db : Database) (user_id chat_id : Int)
    (status : String) (now : Nat) (failure : Option Nat) : TxResult :=
  match failure with
  | none => ⟨update_captcha_status db user_id chat_id status now, false⟩
  | some _ => ⟨db, false⟩

/-- One value of the `self.user_captcha` dict: the session of an outstanding
challenge (fields in the order they are assigned in `handle_new_member`). -/
structure CaptchaInfo where
  object : String
  correct_emoji : String
  message_id : Int
  chat_id : Int
  user_id : Int
  timestamp : Nat
deriving DecidableEq

/-- The bot state touched by the handlers: the durable store plus the
in-memory `self.user_captcha` dict, modelled as an association list from
user id (the dict key: `self.user_captcha[new_member.id] = ...`) to session. -/
structure BotState where
  db : Database
  user_captcha : List (Int × CaptchaInfo)
deriving DecidableEq

/-- The outbound Telegram API calls a handler performs, in order. -/
inductive Action where
  | sendMessage (chat_id : Int) (text : String) (buttons : List String) : Action
  | deleteMessage (chat_id message_id : Int) : Action
  | answerCallback (callback_id : Int) (text : String) : Action
  | kickChatMember (chat_id user_id : Int) : Action
  | replyTo (text : String) : Action
deriving DecidableEq

/-- Python dict assignment `d[k] = v`: replaces the value in place when the
key is present (preserving insertion order), otherwise appends. -/
def dict_set (d : List (Int × CaptchaInfo)) (k : Int) (v : CaptchaInfo) :
    List (Int × CaptchaInfo) :=
  if d.any (fun kv => kv.1 == k) then
    d.map (fun kv => if kv.1 == k then (k, v) else kv)
  else d ++ [(k, v)]

/-- The `captcha_config['objects']` list. -/
def captcha_objects : List String :=
  ["стол", "стул", "ложка", "вилка", "нож", "чашка"]

/-- The `captcha_config['emojis']` table; `.get(target_object, [])` yields
`[]` for an unknown key. -/
def captcha_emojis (object : String) : List String :=
  if object = "стол" then ["🪑", "🍽️", "🏠", "🧊", "🚪"]
  else if object = "стул" then ["🪑", "🛋️", "🏠", "🧊", "📚"]
  else if object = "ложка" then ["🥄", "🍲", "🥣", "🍽️", "🍵"]
  else if object = "вилка" then ["🍴", "🥘", "🍽️", "🥣", "🍲"]
  else if object = "нож" then ["🔪", "🍽️", "🥩", "🥒", "🥕"]
  else if object = "чашка" then ["☕", "🍵", "🥤", "🍺", "🥛"]
  else []

/-- The record returned by `CaptchaBot.generate_captcha`. -/
structure CaptchaData where
  object : String
  emojis : List String
  correct_emoji : String
deriving DecidableEq

/-- `CaptchaBot.generate_captcha` with the randomness as oracle inputs:
`target_object` stands for `random.choice(objects)` and `shuffled` for the
contents of the pool after `random.shuffle` (so in any real run `shuffled`
is a permutation of `captcha_emojis target_object`).  The function reads
`DIFFICULTY_LEVEL` but never uses it, so it is omitted.  Note the source
takes `object_emojis[0]` AFTER shuffling, so the emoji it will accept is the
post-shuffle head (`headD` models the `[0]` indexing, defined on the
permutations of the nonempty configured pools). -/
def generate_captcha (target_object : String) (shuffled : List String) :
    CaptchaData :=
  { object := target_object, emojis := shuffled,
    correct_emoji := shuffled.headD ("") }

/-- The fields of a `new_chat_members` entry the handler reads. -/
structure Member where
  id : Int
  username : Option String
  first_name : String

/-- Python `new_member.username or str(new_member.id)`: `or` falls through
on `None` and on the empty (falsy) string. -/
def py_or_str (s : Option String) (d : String) : String :=
  match s with
  | none => d
  | some t => if t = "" then d else t

/-- `CaptchaBot.handle_new_member`.  Oracles: `captcha_data` is the value
`generate_captcha` returned in the challenge branch, `captcha_message_id`
the message id the Gateway returned for the challenge message.  Note the
status is read BEFORE `add_user` unconditionally upserts the row. -/
def handle_new_member (st : BotState) (chat_id : Int) (new_member : Member)
    (captcha_data : CaptchaData) (captcha_message_id : Int) (now : Nat) :
    BotState × List Action :=
  let user_status := check_user_status st.db new_member.id chat_id
  let db1 := add_user st.db new_member.id
    (py_or_str new_member.username (toString new_member.id)) chat_id now
  if user_status = "new" ∨ user_status = "not_verified" then
    let info : CaptchaInfo :=
      ⟨captcha_data.object, captcha_data.correct_emoji, captcha_message_id,
        chat_id, new_member.id, now⟩
    (⟨db1, dict_set st.user_captcha new_member.id info⟩,
     [Action.sendMessage chat_id
        (new_member.first_name ++ ", для входа в группу выберите " ++
          captcha_data.object ++ "!") captcha_data.emojis])
  else if user_status = "verified" then
    (⟨db1, st.user_captcha⟩,
     [Action.sendMessage chat_id
        ("👋 " ++ new_member.first_name ++ ", добро пожаловать обратно!") []])
  else
    (⟨db1, st.user_captcha⟩,
     [Action.sendMessage chat_id
        ("❌ Ошибка при проверке пользователя " ++ new_member.first_name) []])

/-- Python `str.split(sep)` for a one-character separator, keeping empty
pieces, written structurally over the character list so that the kernel can
evaluate it (Lean's `String.splitOn` does not reduce definitionally). -/
def split_char (sep : Char) : List Char → List (List Char)
  | [] => [[]]
  | c :: cs =>
    let r := split_char sep cs
    if c = sep then [] :: r
    else
      match r with
      | [] => [[c]]
      | h :: t => (c :: h) :: t

/-- Python `s.split(sep)` on strings, for a one-character separator. -/
def py_split_on (sep : Char) (s : String) : List String :=
  (split_char sep s.data).map String.mk

/-- Accumulator loop for decimal digit parsing. -/
def parse_nat_aux (acc : Nat) : List Char → Option Nat
  | [] => some acc
  | c :: cs => if c.isDigit then parse_nat_aux (10 * acc + (c.toNat - 48)) cs else none

/-- All-decimal-digit parse of a nonempty character list. -/
def parse_nat : List Char → Option Nat
  | [] => none
  | cs => parse_nat_aux 0 cs

/-- Python `int(s)` on an optional sign followed by decimal digits; `none`
models the `ValueError`.  (Python additionally strips surrounding whitespace
and allows digit-group underscores; those inputs are not exercised here.) -/
def py_int (s : String) : Option Int :=
  match s.data with
  | '-' :: rest => (parse_nat rest).map (fun n => -(n : Int))
  | '+' :: rest => (parse_nat rest).map Int.ofNat
  | cs => (parse_nat cs).map Int.ofNat

/-- The fields of a callback query the response handler reads. -/
structure CallbackQuery where
  id : Int
  from_user_id : Int
  from_first_name : String
  message_chat_id : Int
  data : String

/-- The session lookup in `handle_captcha_response`: the first dict value
matching the responding user and chat (`next(..., None)` over
`self.user_captcha.values()`). -/
def find_captcha (sessions : List (Int × CaptchaInfo)) (user_id chat_id : Int) :
    Option CaptchaInfo :=
  (sessions.map Prod.snd).find?
    (fun info => info.user_id == user_id && info.chat_id == chat_id)

/-- `CaptchaBot.handle_captcha_response`.  On the correct emoji: delete the
challenge message, set the store to completed, send a success notice, and
rebuild the dict without this (user, chat)'s sessions.  Otherwise: only an
`answer_callback_query` naming the target object.  No matching session:
return with no effect. -/
def handle_captcha_response (st : BotState) (call : CallbackQuery) (now : Nat) :
    BotState × List Action :=
  let user_id := call.from_user_id
  let chat_id := call.message_chat_id
  match find_captcha st.user_captcha user_id chat_id with
  | none => (st, [])
  | some captcha_info =>
    let selected_emoji := (py_split_on '_' call.data).getD 1 ("")
    if selected_emoji = captcha_info.correct_emoji then
      (⟨update_captcha_status st.db user_id chat_id ("completed") now,
        st.user_captcha.filter
          (fun kv => !(kv.2.user_id == user_id && kv.2.chat_id == chat_id))⟩,
       [Action.deleteMessage captcha_info.chat_id captcha_info.message_id,
        Action.sendMessage captcha_info.chat_id
          ("✅ " ++ call.from_first_name ++ " прошел проверку!") []])
    else
      (st, [Action.answerCallback call.id
              ("Это не " ++ captcha_info.object ++ "!")])

/-- The fields of a `/remove_captcha` command message the handler reads;
`reply_to_from_user_id` is `message.reply_to_message.from_user.id` when the
command is a reply. -/
structure CommandMsg where
  chat_id : Int
  from_user_id : Int
  text : String
  reply_to_from_user_id : Option Int

/-- Python `str.split()` (no separator): split on spaces, dropping empty
pieces. -/
def py_split (s : String) : List String :=
  (py_split_on ' ' s).filter (fun t => !(t == ""))

/-- The `remove_captcha` command handler registered in `register_handlers`.
`caller_status` is the `get_chat_member(...).status` the Gateway returns for
the invoking user; `py_int` models the `int(...)` call whose `ValueError`
branch replies with the validation notice. -/
def remove_captcha (st : BotState) (message : CommandMsg)
    (caller_status : String) (now : Nat) : BotState × List Action :=
  if caller_status = "administrator" ∨ caller_status = "creator" then
    match message.reply_to_from_user_id with
    | some user_id =>
      (⟨update_captcha_status st.db user_id message.chat_id ("completed") now,
        st.user_captcha⟩,
       [Action.replyTo ("Капча для пользователя " ++ toString user_id ++
          " принудительно снята администратором.")])
    | none =>
      if (py_split message.text).length > 1 then
        match py_int ((py_split message.text).getD 1 ("")) with
        | some user_id =>
          (⟨update_captcha_status st.db user_id message.chat_id ("completed") now,
            st.user_captcha⟩,
           [Action.replyTo ("Капча для пользователя " ++ toString user_id ++
              " принудительно снята администратором.")])
        | none => (st, [Action.replyTo ("Некорректный ID пользователя")])
      else (st, [Action.replyTo ("Используйте реплай или укажите ID")])
  else (st, [Action.replyTo ("У вас недостаточно прав для этой команды")])

/-- The Gateway oracle for the sweeper: whether `delete_message(chat_id,
message_id)` and `kick_chat_member(chat_id, user_id)` succeed (or raise). -/
structure Gateway where
  delete_ok : Int → Int → Bool
  kick_ok : Int → Int → Bool

/-- The body of the sweeper's per-session work in `check_captcha_timeout`:
for an expired session, `try: delete_message; kick_chat_member; rebuild the
dict without this (user, chat)  except: log`.  A raise in `delete_message`
skips the kick and the dict rebuild; a raise in `kick_chat_member` skips the
dict rebuild; in either case the session stays.  The store is never
touched. -/
def check_captcha_step (gw : Gateway) (current_time max_captcha_time : Nat)
    (acc : BotState × List Action) (captcha_info : CaptchaInfo) :
    BotState × List Action :=
  if current_time - captcha_info.timestamp > max_captcha_time then
    if gw.delete_ok captcha_info.chat_id captcha_info.message_id then
      if gw.kick_ok captcha_info.chat_id captcha_info.user_id then
        (⟨acc.1.db, acc.1.user_captcha.filter
            (fun kv => !(kv.2.user_id == captcha_info.user_id &&
                         kv.2.chat_id == captcha_info.chat_id))⟩,
         acc.2 ++ [Action.deleteMessage captcha_info.chat_id captcha_info.message_id,
                   Action.kickChatMember captcha_info.chat_id captcha_info.user_id])
      else
        (acc.1, acc.2 ++
          [Action.deleteMessage captcha_info.chat_id captcha_info.message_id])
    else acc
  else acc

/-- One iteration of the `while True` loop in `check_captcha_timeout`: walk
a snapshot (`list(self.user_captcha.values())`) of the sessions, applying
`check_captcha_step` to each. -/
def check_captcha_timeout_cycle (gw : Gateway) (current_time max_captcha_time : Nat)
    (st : BotState) : BotState × List Action :=
  (st.user_captcha.map Prod.snd).foldl
    (check_captcha_step gw current_time max_captcha_time) (st, [])

/-- A concrete unverified store row for user 42 in chat 7, used to
instantiate the theorems below at concrete inputs. -/
def exRow : UserRow := ⟨42, 7, "u", 0, 0, 0, 0⟩

/-- A concrete verified store row for user 42 in chat 7. -/
def exRowVerified : UserRow := ⟨42, 7, "u", 0, 0, 1, 5⟩

/-- A concrete session: user 42 in chat 7 must pick the cup emoji. -/
def exInfo : CaptchaInfo := ⟨"чашка", "☕", 99, 7, 42, 0⟩

/-- A concrete bot state: the row `exRow` and the session `exInfo`. -/
def exSt : BotState := ⟨⟨[exRow], []⟩, [(42, exInfo)]⟩

/-- A callback query from user 42 in chat 7 choosing the correct emoji. -/
def exCallRight : CallbackQuery := ⟨1, 42, "U", 7, "captcha_☕"⟩

/-- A concrete bot state holding the verified row and no session. -/
def exStVerified : BotState := ⟨⟨[exRowVerified], []⟩, []⟩

/-- A concrete joining member: user 42, username "u", first name "U". -/
def exMember : Member := ⟨42, some "u", "U"⟩

/-- A concrete generated challenge for the cup concept. -/
def exCap : CaptchaData := ⟨"чашка", ["☕", "🍵", "🥤", "🍺", "🥛"], "☕"⟩

/-- A concrete outstanding session of user 42 in a DIFFERENT chat (chat 5). -/
def exInfoOtherChat : CaptchaInfo := ⟨"нож", "🔪", 55, 5, 42, 3⟩

/-- A concrete bot state where user 42 already holds the chat-5 session. -/
def exStOtherChat : BotState := ⟨⟨[], []⟩, [(42, exInfoOtherChat)]⟩

/-- A concrete admin command replying to user 42's message in chat 7. -/
def exCmdReply : CommandMsg := ⟨7, 1, "/remove_captcha", some 42⟩

/-- A concrete admin command replying to user 99 (who has no store row). -/
def exCmdReplyAbsent : CommandMsg := ⟨7, 1, "/remove_captcha", some 99⟩

/-- A concrete admin command with a non-numeric id argument. -/
def exCmdBadArg : CommandMsg := ⟨7, 1, "/remove_captcha abc", none⟩

/-- A Gateway on which every call succeeds. -/
def gwAllOk : Gateway := ⟨fun _ _ => true, fun _ _ => true⟩

/-- A Gateway on which `delete_message` always raises. -/
def gwDeleteFails : Gateway := ⟨fun _ _ => false, fun _ _ => true⟩

/-- Unfolding of the SQL key predicate into a proposition. -/
theorem rowKey_eq_true {user_id chat_id : Int} {r : UserRow} :
    rowKey user_id chat_id r = true ↔ r.user_id = user_id ∧ r.chat_id = chat_id := by
  simp [rowKey]

/-- A per-row update that cannot change the key columns commutes with the
keyed lookup. -/
theorem find?_map_keep_keys (l : List UserRow) (p q : UserRow → Bool)
    (f : UserRow → UserRow) (hf : ∀ r, q (f r) = q r) :
    (l.map (fun r => if p r then f r else r)).find? q =
      (l.find? q).map (fun r => if p r then f r else r) := by
  rw [List.find?_map]
  have hq : (q ∘ fun r => if p r then f r else r) = q := by
    funext r
    by_cases h : p r <;> simp [Function.comp, h, hf]
  rw [hq]

/-- `update_captcha_status` seen through `find_user`: the matching row gets
its `captcha_passed` column rewritten, any other lookup is unchanged. -/
theorem find_user_update_captcha_status (db : Database) (u c : Int)
    (status : String) (now : Nat) (v w : Int) :
    find_user (update_captcha_status db u c status now) v w =
      (find_user db v w).map (fun r =>
        if rowKey u c r then
          { r with captcha_passed := if status = "completed" then 1 else 0 }
        else r) := by
  unfold find_user update_captcha_status
  exact find?_map_keep_keys _ _ _ _ (fun r => by simp [rowKey])

/-- `track_activity` seen through `find_user`. -/
theorem find_user_track_activity (db : Database) (u c : Int) (now : Nat)
    (v w : Int) :
    find_user (track_activity db u c now) v w =
      (find_user db v w).map (fun r =>
        if rowKey u c r then
          { r with last_activity := now, message_count := r.message_count + 1 }
        else r) := by
  unfold find_user track_activity
  exact find?_map_keep_keys _ _ _ _ (fun r => by simp [rowKey])

/-- After `add_user`, the keyed lookup returns exactly the freshly inserted
row (the `INSERT OR REPLACE` dropped every conflicting row). -/
theorem find_user_add_user (db : Database) (u : Int) (name : String) (c : Int)
    (now : Nat) :
    find_user (add_user db u name c now) u c = some ⟨u, c, name, now, now, 0, 0⟩ := by
  unfold find_user add_user
  rw [List.find?_append]
  have h1 : (db.users.filter (fun r => !(rowKey u c r))).find? (rowKey u c) = none := by
    rw [List.find?_eq_none]
    intro x hx
    have h := (List.mem_filter.mp hx).2
    simp only [Bool.not_eq_true'] at h
    simp [h]
  rw [h1]
  simp [rowKey]

/-- The dict rebuild dropping one (user, chat) leaves no session that the
response handler's lookup for that pair could still find. -/
theorem find_captcha_filter_none (l : List (Int × CaptchaInfo)) (u c : Int) :
    find_captcha (l.filter (fun kv => !(kv.2.user_id == u && kv.2.chat_id == c))) u c =
      none := by
  unfold find_captcha
  rw [List.find?_eq_none]
  intro x hx
  rcases List.mem_map.mp hx with ⟨kv, hkv, rfl⟩
  have h := (List.mem_filter.mp hkv).2
  simp only [Bool.not_eq_true'] at h
  simp [h]

/-- One sweeper step never touches the durable store. -/
theorem check_captcha_step_db (gw : Gateway) (t m : Nat)
    (acc : BotState × List Action) (i : CaptchaInfo) :
    (check_captcha_step gw t m acc i).1.db = acc.1.db := by
  unfold check_captcha_step
  split_ifs <;> rfl

/-- Folding sweeper steps never touches the durable store. -/
theorem foldl_check_captcha_step_db (gw : Gateway) (t m : Nat)
    (l : List CaptchaInfo) (acc : BotState × List Action) :
    (l.foldl (check_captcha_step gw t m) acc).1.db = acc.1.db := by
  induction l generalizing acc with
  | nil => rfl
  | cons i l ih => rw [List.foldl_cons, ih, check_captcha_step_db]

/-- One sweeper step only ever removes sessions, never adds one. -/
theorem check_captcha_step_mem_uc (gw : Gateway) (t m : Nat)
    (acc : BotState × List Action) (i : CaptchaInfo) (kv : Int × CaptchaInfo)
    (h : kv ∈ (check_captcha_step gw t m acc i).1.user_captcha) :
    kv ∈ acc.1.user_captcha := by
  unfold check_captcha_step at h
  split_ifs at h
  · exact (List.mem_filter.mp h).1
  · exact h
  · exact h
  · exact h

/-- Folding sweeper steps only ever removes sessions. -/
theorem foldl_check_captcha_step_mem_uc (gw : Gateway) (t m : Nat)
    (l : List CaptchaInfo) (acc : BotState × List Action) (kv : Int × CaptchaInfo)
    (h : kv ∈ (l.foldl (check_captcha_step gw t m) acc).1.user_captcha) :
    kv ∈ acc.1.user_captcha := by
  induction l generalizing acc with
  | nil => exact h
  | cons i l ih =>
    rw [List.foldl_cons] at h
    exact check_captcha_step_mem_uc gw t m acc i kv (ih _ h)

/-- One sweeper step keeps every Gateway call already recorded. -/
theorem check_captcha_step_mem_acts (gw : Gateway) (t m : Nat)
    (acc : BotState × List Action) (i : CaptchaInfo) (a : Action) (h : a ∈ acc.2) :
    a ∈ (check_captcha_step gw t m acc i).2 := by
  unfold check_captcha_step
  split_ifs <;> simp [h]

/-- Folding sweeper steps keeps every Gateway call already recorded. -/
theorem foldl_check_captcha_step_mem_acts (gw : Gateway) (t m : Nat)
    (l : List CaptchaInfo) (acc : BotState × List Action) (a : Action) (h : a ∈ acc.2) :
    a ∈ (l.foldl (check_captcha_step gw t m) acc).2 := by
  induction l generalizing acc with
  | nil => exact h
  | cons i l ih =>
    rw [List.foldl_cons]
    exact ih _ (check_captcha_step_mem_acts gw t m acc i a h)

/-- C1: for a (user, chat) with an active captcha session and an unverified
store row, a response choosing the session's correct option deletes the
challenge message, flips the durable captcha_passed from 0 to 1 (appending
the captcha_completed log entry), removes the session and sends the success
notice; a response choosing any other option leaves the whole state
untouched and only answers the callback naming the correct concept. -/
theorem C1_captcha_response (st : BotState) (call : CallbackQuery) (now : Nat)
    (info : CaptchaInfo) (row : UserRow)
    (hfind : find_captcha st.user_captcha call.from_user_id call.message_chat_id =
      some info)
    (hrow : find_user st.db call.from_user_id call.message_chat_id = some row)
    (hcp : row.captcha_passed = 0) :
    ((py_split_on '_' call.data).getD 1 ("") = info.correct_emoji →
      (handle_captcha_response st call now).2 =
        [Action.deleteMessage info.chat_id info.message_id,
         Action.sendMessage info.chat_id
           ("✅ " ++ call.from_first_name ++ " прошел проверку!") []] ∧
      find_user (handle_captcha_response st call now).1.db call.from_user_id
          call.message_chat_id = some { row with captcha_passed := 1 } ∧
      (handle_captcha_response st call now).1.db.activity_log =
        st.db.activity_log ++
          [⟨call.from_user_id, call.message_chat_id, "captcha_completed", now⟩] ∧
      find_captcha (handle_captcha_response st call now).1.user_captcha
          call.from_user_id call.message_chat_id = none) ∧
    ((py_split_on '_' call.data).getD 1 ("") ≠ info.correct_emoji →
      handle_captcha_response st call now =
        (st, [Action.answerCallback call.id ("Это не " ++ info.object ++ "!")])) := by
  have hkey : rowKey call.from_user_id call.message_chat_id row = true :=
    List.find?_some hrow
  constructor
  · intro hsel
    have hrun : handle_captcha_response st call now =
        (⟨update_captcha_status st.db call.from_user_id call.message_chat_id
            ("completed") now,
          st.user_captcha.filter (fun kv =>
            !(kv.2.user_id == call.from_user_id &&
              kv.2.chat_id == call.message_chat_id))⟩,
         [Action.deleteMessage info.chat_id info.message_id,
          Action.sendMessage info.chat_id
            ("✅ " ++ call.from_first_name ++ " прошел проверку!") []]) := by
      unfold handle_captcha_response
      simp only [hfind, hsel, if_pos]
    refine ⟨by rw [hrun], ?_, ?_, ?_⟩
    · rw [hrun]
      dsimp only
      rw [find_user_update_captcha_status, hrow]
      simp [hkey]
    · rw [hrun]
      dsimp only [update_captcha_status]
      rfl
    · rw [hrun]
      exact find_captcha_filter_none _ _ _
  · intro hneq
    unfold handle_captcha_response
    simp only [hfind, hneq, if_neg]
    simp [hneq]

/-- Witness for C1 at a concrete input: user 42's session in chat 7 accepts
the cup emoji; the hypotheses hold and the theorem applies. -/
theorem C1_captcha_response_witness :
    (find_captcha exSt.user_captcha 42 7 = some exInfo) ∧
    (find_user exSt.db 42 7 = some exRow) ∧
    exRow.captcha_passed = 0 ∧
    (((py_split_on '_' exCallRight.data).getD 1 ("") = exInfo.correct_emoji →
      (handle_captcha_response exSt exCallRight 10).2 =
        [Action.deleteMessage exInfo.chat_id exInfo.message_id,
         Action.sendMessage exInfo.chat_id
           ("✅ " ++ exCallRight.from_first_name ++ " прошел проверку!") []] ∧
      find_user (handle_captcha_response exSt exCallRight 10).1.db
          exCallRight.from_user_id exCallRight.message_chat_id =
        some { exRow with captcha_passed := 1 } ∧
      (handle_captcha_response exSt exCallRight 10).1.db.activity_log =
        exSt.db.activity_log ++ [⟨42, 7, "captcha_completed", 10⟩] ∧
      find_captcha (handle_captcha_response exSt exCallRight 10).1.user_captcha
          exCallRight.from_user_id exCallRight.message_chat_id = none) ∧
    ((py_split_on '_' exCallRight.data).getD 1 ("") ≠ exInfo.correct_emoji →
      handle_captcha_response exSt exCallRight 10 =
        (exSt, [Action.answerCallback exCallRight.id
          ("Это не " ++ exInfo.object ++ "!")]))) :=
  ⟨by decide, by decide, by decide,
    C1_captcha_response exSt exCallRight 10 exInfo exRow (by decide) (by decide)
      (by decide)⟩

/-- C2 (amended): for every session whose age exceeds the configured limit,
when both Gateway actions succeed one sweeper cycle deletes the challenge
message, removes the participant from the chat and removes the session from
the registry — but it leaves the durable store exactly as it was: no
`expired` outcome and no `captcha_expired` log entry is ever written. -/
theorem C2_sweep_expired (gw : Gateway) (st : BotState)
    (current_time max_captcha_time : Nat) (k : Int) (info : CaptchaInfo)
    (hmem : (k, info) ∈ st.user_captcha)
    (hexp : current_time - info.timestamp > max_captcha_time)
    (hdel : gw.delete_ok info.chat_id info.message_id = true)
    (hkick : gw.kick_ok info.chat_id info.user_id = true) :
    (check_captcha_timeout_cycle gw current_time max_captcha_time st).1.db = st.db ∧
    Action.deleteMessage info.chat_id info.message_id ∈
      (check_captcha_timeout_cycle gw current_time max_captcha_time st).2 ∧
    Action.kickChatMember info.chat_id info.user_id ∈
      (check_captcha_timeout_cycle gw current_time max_captcha_time st).2 ∧
    ∀ kv ∈ (check_captcha_timeout_cycle gw current_time max_captcha_time st).1.user_captcha,
      ¬(kv.2.user_id = info.user_id ∧ kv.2.chat_id = info.chat_id) := by
  have hmem' : info ∈ st.user_captcha.map Prod.snd :=
    List.mem_map.mpr ⟨(k, info), hmem, rfl⟩
  obtain ⟨l1, l2, hsplit⟩ := List.append_of_mem hmem'
  have hcycle : check_captcha_timeout_cycle gw current_time max_captcha_time st =
      l2.foldl (check_captcha_step gw current_time max_captcha_time)
        (check_captcha_step gw current_time max_captcha_time
          (l1.foldl (check_captcha_step gw current_time max_captcha_time) (st, []))
          info) := by
    unfold check_captcha_timeout_cycle
    rw [hsplit, List.foldl_append, List.foldl_cons]
  set acc1 := l1.foldl (check_captcha_step gw current_time max_captcha_time) (st, [])
    with hacc1
  have hstep : check_captcha_step gw current_time max_captcha_time acc1 info =
      (⟨acc1.1.db, acc1.1.user_captcha.filter
          (fun kv => !(kv.2.user_id == info.user_id &&
                       kv.2.chat_id == info.chat_id))⟩,
       acc1.2 ++ [Action.deleteMessage info.chat_id info.message_id,
                  Action.kickChatMember info.chat_id info.user_id]) := by
    unfold check_captcha_step
    rw [if_pos hexp, if_pos hdel, if_pos hkick]
  refine ⟨?_, ?_, ?_, ?_⟩
  · rw [hcycle, foldl_check_captcha_step_db, hstep]
    dsimp only
    rw [hacc1, foldl_check_captcha_step_db]
  · rw [hcycle]
    refine foldl_check_captcha_step_mem_acts _ _ _ _ _ _ ?_
    rw [hstep]
    simp
  · rw [hcycle]
    refine foldl_check_captcha_step_mem_acts _ _ _ _ _ _ ?_
    rw [hstep]
    simp
  · intro kv hkv h2
    rw [hcycle] at hkv
    have hkv' := foldl_check_captcha_step_mem_uc _ _ _ _ _ _ hkv
    rw [hstep] at hkv'
    have hpred := (List.mem_filter.mp hkv').2
    simp only [Bool.not_eq_true', Bool.and_eq_false_iff, beq_eq_false_iff_ne] at hpred
    rcases hpred with h | h
    · exact h h2.1
    · exact h h2.2

/-- Witness for C2 at a concrete input: user 42's session in chat 7 expired
(age 1000 > 300) and both Gateway calls succeed. -/
theorem C2_sweep_expired_witness :
    ((42, exInfo) ∈ exSt.user_captcha) ∧
    (1000 - exInfo.timestamp > 300) ∧
    (gwAllOk.delete_ok exInfo.chat_id exInfo.message_id = true) ∧
    (gwAllOk.kick_ok exInfo.chat_id exInfo.user_id = true) ∧
    ((check_captcha_timeout_cycle gwAllOk 1000 300 exSt).1.db = exSt.db ∧
     Action.deleteMessage exInfo.chat_id exInfo.message_id ∈
       (check_captcha_timeout_cycle gwAllOk 1000 300 exSt).2 ∧
     Action.kickChatMember exInfo.chat_id exInfo.user_id ∈
       (check_captcha_timeout_cycle gwAllOk 1000 300 exSt).2 ∧
     ∀ kv ∈ (check_captcha_timeout_cycle gwAllOk 1000 300 exSt).1.user_captcha,
       ¬(kv.2.user_id = exInfo.user_id ∧ kv.2.chat_id = exInfo.chat_id)) :=
  ⟨by decide, by decide, by decide, by decide,
    C2_sweep_expired gwAllOk exSt 1000 300 42 exInfo (by decide) (by decide)
      (by decide) (by decide)⟩

/-- Counterexample to C2 as stated: on a concrete expired session the cycle
removes the session (and would have called the Gateway), yet the durable
store afterwards is exactly the store before — captcha_passed is untouched
and no `captcha_expired` activity-log entry was appended, contradicting the
claimed store update to the `expired` outcome. -/
theorem C2_no_store_update_cex :
    (check_captcha_timeout_cycle gwAllOk 1000 300 exSt).1.user_captcha = [] ∧
    (check_captcha_timeout_cycle gwAllOk 1000 300 exSt).1.db = exSt.db ∧
    ((check_captcha_timeout_cycle gwAllOk 1000 300 exSt).1.db.activity_log.all
      (fun e => !(e.action == "captcha_expired"))) = true ∧
    (find_user (check_captcha_timeout_cycle gwAllOk 1000 300 exSt).1.db 42 7 =
      some exRow) := by
  decide

/-- C3 (amended): a join event for a (user, chat) whose durable status is
verified sends a plain greeting and creates no session — but the handler
then upserts the row unconditionally, so after the join the pair's durable
row is a fresh one with captcha_passed reset to 0 (no longer verified). -/
theorem C3_verified_rejoin (st : BotState) (chat_id : Int) (new_member : Member)
    (captcha_data : CaptchaData) (captcha_message_id : Int) (now : Nat)
    (row : UserRow)
    (hrow : find_user st.db new_member.id chat_id = some row)
    (hcp : row.captcha_passed ≠ 0) :
    (handle_new_member st chat_id new_member captcha_data captcha_message_id now).2 =
      [Action.sendMessage chat_id
        ("👋 " ++ new_member.first_name ++ ", добро пожаловать обратно!") []] ∧
    (handle_new_member st chat_id new_member captcha_data captcha_message_id
      now).1.user_captcha = st.user_captcha ∧
    find_user (handle_new_member st chat_id new_member captcha_data
        captcha_message_id now).1.db new_member.id chat_id =
      some ⟨new_member.id, chat_id,
        py_or_str new_member.username (toString new_member.id), now, now, 0, 0⟩ := by
  have hstatus : check_user_status st.db new_member.id chat_id = "verified" := by
    unfold check_user_status
    rw [hrow]
    exact if_neg hcp
  have hrun : handle_new_member st chat_id new_member captcha_data
      captcha_message_id now =
      (⟨add_user st.db new_member.id
          (py_or_str new_member.username (toString new_member.id)) chat_id now,
        st.user_captcha⟩,
       [Action.sendMessage chat_id
         ("👋 " ++ new_member.first_name ++ ", добро пожаловать обратно!") []]) := by
    unfold handle_new_member
    rw [hstatus,
      if_neg (show ¬("verified" = "new" ∨ "verified" = "not_verified") by decide),
      if_pos rfl]
  refine ⟨by rw [hrun], by rw [hrun], ?_⟩
  rw [hrun]
  exact find_user_add_user _ _ _ _ _

/-- Witness for C3 at a concrete input: verified user 42 rejoins chat 7;
the hypotheses hold and the theorem applies. -/
theorem C3_verified_rejoin_witness :
    (find_user exStVerified.db 42 7 = some exRowVerified) ∧
    (exRowVerified.captcha_passed ≠ 0) ∧
    ((handle_new_member exStVerified 7 exMember exCap 99 10).2 =
      [Action.sendMessage 7
        ("👋 " ++ exMember.first_name ++ ", добро пожаловать обратно!") []] ∧
    (handle_new_member exStVerified 7 exMember exCap 99 10).1.user_captcha =
      exStVerified.user_captcha ∧
    find_user (handle_new_member exStVerified 7 exMember exCap 99 10).1.db 42 7 =
      some ⟨42, 7, py_or_str exMember.username (toString (42 : Int)), 10, 10, 0, 0⟩) :=
  ⟨by decide, by decide,
    C3_verified_rejoin exStVerified 7 exMember exCap 99 10 exRowVerified
      (by decide) (by decide)⟩

/-- Counterexample to C3 as stated: after verified user 42 rejoins chat 7,
the greeting is sent and no session is created, but the durable row's
captcha_passed is 0, not 1 — the pair is no longer in the verified state. -/
theorem C3_rejoin_resets_cex :
    (handle_new_member exStVerified 7 exMember exCap 99 10).2 =
      [Action.sendMessage 7 ("👋 U, добро пожаловать обратно!") []] ∧
    (handle_new_member exStVerified 7 exMember exCap 99 10).1.user_captcha = [] ∧
    (find_user (handle_new_member exStVerified 7 exMember exCap 99 10).1.db 42
      7).map UserRow.captcha_passed = some 0 := by
  decide

/-- C4: the session dict is keyed by user id alone, so per-key uniqueness is
uniqueness per user across all chats; issuing a challenge to a user who
already holds a session in a different chat silently replaces that session
(the old one is gone, the new one is stored under the same key) while the
only Gateway call is the new challenge message — nothing resolves the old
session by response, override or expiry. -/
theorem C4_session_key_user_only (st : BotState) (chat_id : Int)
    (new_member : Member) (captcha_data : CaptchaData) (captcha_message_id : Int)
    (now : Nat) (old : CaptchaInfo)
    (hnodup : (st.user_captcha.map Prod.fst).Nodup)
    (hold : (new_member.id, old) ∈ st.user_captcha)
    (hchat : old.chat_id ≠ chat_id)
    (hstatus : check_user_status st.db new_member.id chat_id = "new" ∨
      check_user_status st.db new_member.id chat_id = "not_verified") :
    (((handle_new_member st chat_id new_member captcha_data captcha_message_id
        now).1.user_captcha.map Prod.fst).Nodup) ∧
    ((new_member.id, (⟨captcha_data.object, captcha_data.correct_emoji,
        captcha_message_id, chat_id, new_member.id, now⟩ : CaptchaInfo)) ∈
      (handle_new_member st chat_id new_member captcha_data captcha_message_id
        now).1.user_captcha) ∧
    ((new_member.id, old) ∉
      (handle_new_member st chat_id new_member captcha_data captcha_message_id
        now).1.user_captcha) ∧
    ((handle_new_member st chat_id new_member captcha_data captcha_message_id
        now).2 =
      [Action.sendMessage chat_id
        (new_member.first_name ++ ", для входа в группу выберите " ++
          captcha_data.object ++ "!") captcha_data.emojis]) := by
  have hrun : handle_new_member st chat_id new_member captcha_data
      captcha_message_id now =
      (⟨add_user st.db new_member.id
          (py_or_str new_member.username (toString new_member.id)) chat_id now,
        dict_set st.user_captcha new_member.id
          ⟨captcha_data.object, captcha_data.correct_emoji, captcha_message_id,
            chat_id, new_member.id, now⟩⟩,
       [Action.sendMessage chat_id
         (new_member.first_name ++ ", для входа в группу выберите " ++
           captcha_data.object ++ "!") captcha_data.emojis]) := by
    unfold handle_new_member
    rcases hstatus with h | h
    · rw [h, if_pos (Or.inl rfl)]
    · rw [h, if_pos (Or.inr rfl)]
  have hany : st.user_captcha.any (fun kv => kv.1 == new_member.id) = true :=
    List.any_eq_true.mpr ⟨(new_member.id, old), hold, by simp⟩
  have hdict : dict_set st.user_captcha new_member.id
      ⟨captcha_data.object, captcha_data.correct_emoji, captcha_message_id,
        chat_id, new_member.id, now⟩ =
      st.user_captcha.map (fun kv =>
        if kv.1 == new_member.id then
          (new_member.id, (⟨captcha_data.object, captcha_data.correct_emoji,
            captcha_message_id, chat_id, new_member.id, now⟩ : CaptchaInfo))
        else kv) := by
    unfold dict_set
    rw [if_pos hany]
  refine ⟨?_, ?_, ?_, by rw [hrun]⟩
  · rw [hrun]
    dsimp only
    rw [hdict, List.map_map]
    have hfst : st.user_captcha.map (Prod.fst ∘ fun kv =>
        if kv.1 == new_member.id then
          (new_member.id, (⟨captcha_data.object, captcha_data.correct_emoji,
            captcha_message_id, chat_id, new_member.id, now⟩ : CaptchaInfo))
        else kv) = st.user_captcha.map Prod.fst := by
      apply List.map_congr_left
      intro kv _
      by_cases hk : kv.1 == new_member.id
      · simp only [Function.comp, hk, if_pos]
        exact (beq_iff_eq.mp hk).symm
      · simp [Function.comp, hk]
    rw [hfst]
    exact hnodup
  · rw [hrun]
    dsimp only
    rw [hdict]
    exact List.mem_map.mpr ⟨(new_member.id, old), hold, by simp⟩
  · rw [hrun]
    dsimp only
    rw [hdict]
    intro hmem
    rcases List.mem_map.mp hmem with ⟨kv, hkv, heq⟩
    by_cases hk : kv.1 == new_member.id
    · rw [if_pos hk] at heq
      have : old.chat_id = chat_id := by
        have h2 := (Prod.mk.injEq _ _ _ _).mp heq
        rw [← h2.2]
      exact hchat this
    · rw [if_neg hk] at heq
      rw [heq] at hk
      simp at hk

/-- Witness for C4 at a concrete input: user 42 holds the chat-5 session and
joins chat 7 with a fresh challenge; the hypotheses hold and the theorem
applies. -/
theorem C4_session_key_user_only_witness :
    ((exStOtherChat.user_captcha.map Prod.fst).Nodup) ∧
    ((42, exInfoOtherChat) ∈ exStOtherChat.user_captcha) ∧
    (exInfoOtherChat.chat_id ≠ 7) ∧
    (check_user_status exStOtherChat.db 42 7 = "new" ∨
      check_user_status exStOtherChat.db 42 7 = "not_verified") ∧
    ((((handle_new_member exStOtherChat 7 exMember exCap 99 10).1.user_captcha.map
        Prod.fst).Nodup) ∧
     ((42, (⟨exCap.object, exCap.correct_emoji, 99, 7, 42, 10⟩ : CaptchaInfo)) ∈
       (handle_new_member exStOtherChat 7 exMember exCap 99 10).1.user_captcha) ∧
     ((42, exInfoOtherChat) ∉
       (handle_new_member exStOtherChat 7 exMember exCap 99 10).1.user_captcha) ∧
     ((handle_new_member exStOtherChat 7 exMember exCap 99 10).2 =
       [Action.sendMessage 7
         (exMember.first_name ++ ", для входа в группу выберите " ++
           exCap.object ++ "!") exCap.emojis])) :=
  ⟨by decide, by decide, by decide, Or.inl (by decide),
    C4_session_key_user_only exStOtherChat 7 exMember exCap 99 10 exInfoOtherChat
      (by decide) (by decide) (by decide) (Or.inl (by decide))⟩

/-- C5 (the code's actual behaviour, contradicting the claim): for every
possible run of `generate_captcha` — any configured concept and any shuffle
outcome, i.e. any permutation of its label pool — the option the bot will
accept (`correct_emoji`, read from index 0 AFTER the shuffle) sits at the
fixed position 0 of the returned option order.  The shuffle randomises
WHICH label is deemed correct, not where the correct label sits. -/
theorem C5_correct_index_constant (target_object : String) (shuffled : List String)
    (htarget : target_object ∈ captcha_objects)
    (hperm : shuffled.Perm (captcha_emojis target_object)) :
    List.indexOf (generate_captcha target_object shuffled).correct_emoji
      (generate_captcha target_object shuffled).emojis = 0 := by
  have hne : shuffled ≠ [] := by
    have hlen := hperm.length_eq
    have hpool : (captcha_emojis target_object).length = 5 := by
      fin_cases htarget <;> rfl
    intro h
    rw [h, hpool] at hlen
    simp at hlen
  cases shuffled with
  | nil => exact absurd rfl hne
  | cons x xs => simp [generate_captcha, List.indexOf_cons_self]

/-- Witness for C5 at a concrete run: the cup concept with a shuffle placing
the beer emoji first — the bot will accept "🍺" (position 0), not the cup
emoji "☕". -/
theorem C5_correct_index_constant_witness :
    (("чашка" : String) ∈ captcha_objects) ∧
    ((["🍺", "☕", "🥤", "🍵", "🥛"] : List String).Perm
      (captcha_emojis ("чашка"))) ∧
    ((generate_captcha ("чашка") ["🍺", "☕", "🥤", "🍵", "🥛"]).correct_emoji =
      "🍺") ∧
    List.indexOf
      (generate_captcha ("чашка") ["🍺", "☕", "🥤", "🍵", "🥛"]).correct_emoji
      (generate_captcha ("чашка") ["🍺", "☕", "🥤", "🍵", "🥛"]).emojis = 0 :=
  ⟨by decide, by decide, by decide,
    C5_correct_index_constant ("чашка") ["🍺", "☕", "🥤", "🍵", "🥛"]
      (by decide) (by decide)⟩

/-- C6 (amended): the admin override is accepted only from an administrator
or creator; on acceptance it sets captcha_passed to 1 on the target's
EXISTING users row regardless of its prior value and replies with the
confirmation (when no row exists the UPDATE matches nothing and no row is
created — only the log entry is appended); a non-numeric explicit id yields
the validation reply with no state mutation; a non-privileged caller gets
the permission-denied reply with no state mutation. -/
theorem C6_remove_captcha (st : BotState) (message : CommandMsg)
    (caller_status : String) (now : Nat) (target_id : Int) (row : UserRow) :
    ((caller_status = "administrator" ∨ caller_status = "creator") →
      message.reply_to_from_user_id = some target_id →
      find_user st.db target_id message.chat_id = some row →
        (remove_captcha st message caller_status now).2 =
          [Action.replyTo ("Капча для пользователя " ++ toString target_id ++
            " принудительно снята администратором.")] ∧
        find_user (remove_captcha st message caller_status now).1.db target_id
          message.chat_id = some { row with captcha_passed := 1 } ∧
        (remove_captcha st message caller_status now).1.user_captcha =
          st.user_captcha) ∧
    ((caller_status = "administrator" ∨ caller_status = "creator") →
      message.reply_to_from_user_id = none →
      (py_split message.text).length > 1 →
      py_int ((py_split message.text).getD 1 ("")) = none →
        remove_captcha st message caller_status now =
          (st, [Action.replyTo ("Некорректный ID пользователя")])) ∧
    (¬(caller_status = "administrator" ∨ caller_status = "creator") →
        remove_captcha st message caller_status now =
          (st, [Action.replyTo ("У вас недостаточно прав для этой команды")])) := by
  refine ⟨?_, ?_, ?_⟩
  · intro hadm hreply hrow
    have hrun : remove_captcha st message caller_status now =
        (⟨update_captcha_status st.db target_id message.chat_id ("completed") now,
          st.user_captcha⟩,
         [Action.replyTo ("Капча для пользователя " ++ toString target_id ++
            " принудительно снята администратором.")]) := by
      unfold remove_captcha
      rw [if_pos hadm, hreply]
    refine ⟨by rw [hrun], ?_, by rw [hrun]⟩
    rw [hrun]
    dsimp only
    rw [find_user_update_captcha_status, hrow]
    have hkey := List.find?_some hrow
    simp [hkey]
  · intro hadm hreply hlen hint
    unfold remove_captcha
    rw [if_pos hadm, hreply]
    dsimp only
    rw [if_pos hlen, hint]
  · intro hnadm
    unfold remove_captcha
    rw [if_neg hnadm]

/-- Witness for C6 at concrete inputs: an administrator's reply-override of
user 42 confirms and flips the existing row; the same command with argument
"abc" only yields the validation reply; a plain member is denied. -/
theorem C6_remove_captcha_witness :
    ((remove_captcha exSt exCmdReply ("administrator") 5).2 =
      [Action.replyTo ("Капча для пользователя 42 принудительно снята администратором.")] ∧
     find_user (remove_captcha exSt exCmdReply ("administrator") 5).1.db 42 7 =
       some { exRow with captcha_passed := 1 } ∧
     (remove_captcha exSt exCmdReply ("administrator") 5).1.user_captcha =
       exSt.user_captcha) ∧
    (remove_captcha exSt exCmdBadArg ("administrator") 5 =
      (exSt, [Action.replyTo ("Некорректный ID пользователя")])) ∧
    (remove_captcha exSt exCmdReply ("member") 5 =
      (exSt, [Action.replyTo ("У вас недостаточно прав для этой команды")])) :=
  ⟨(C6_remove_captcha exSt exCmdReply ("administrator") 5 42 exRow).1
      (Or.inl rfl) (by decide) (by decide),
   (C6_remove_captcha exSt exCmdBadArg ("administrator") 5 0 exRow).2.1
      (Or.inl rfl) (by decide) (by decide) (by decide),
   (C6_remove_captcha exSt exCmdReply ("member") 5 0 exRow).2.2 (by decide)⟩

/-- Counterexample to C6 as stated: an accepted override whose target has no
users row does NOT force the durable status to completed — no row exists
afterwards either (the UPDATE matched nothing), even though the confirmation
reply was sent and a captcha_completed log entry was appended. -/
theorem C6_absent_row_cex :
    (remove_captcha exSt exCmdReplyAbsent ("administrator") 5).2 =
      [Action.replyTo ("Капча для пользователя 99 принудительно снята администратором.")] ∧
    find_user (remove_captcha exSt exCmdReplyAbsent ("administrator") 5).1.db 99 7 =
      none ∧
    (remove_captcha exSt exCmdReplyAbsent ("administrator") 5).1.db.activity_log =
      exSt.db.activity_log ++ [⟨99, 7, "captcha_completed", 5⟩] := by
  decide

/-- C7 (amended): under `track_activity` and `update_captcha_status` every
row's message_count is non-decreasing (track bumps the matching row by one
and leaves others alone; the status update never touches it).  `add_user`,
by contrast, fully replaces the row and resets message_count to the column
default 0, which can decrease it — see the counterexample. -/
theorem C7_message_count_monotone (db : Database) (u c : Int) (status : String)
    (now : Nat) (v w : Int) (row : UserRow)
    (hrow : find_user db v w = some row) :
    (∃ row₁, find_user (track_activity db u c now) v w = some row₁ ∧
      row.message_count ≤ row₁.message_count) ∧
    (∃ row₂, find_user (update_captcha_status db u c status now) v w = some row₂ ∧
      row.message_count ≤ row₂.message_count) := by
  constructor
  · rw [find_user_track_activity, hrow]
    refine ⟨_, rfl, ?_⟩
    by_cases hk : rowKey u c row = true
    · simp only [hk, if_pos]
      exact Nat.le_succ _
    · simp [hk]
  · rw [find_user_update_captcha_status, hrow]
    refine ⟨_, rfl, ?_⟩
    by_cases hk : rowKey u c row = true <;> simp [hk]

/-- Witness for C7 at a concrete input: the lookup hypothesis holds for user
42's row and the theorem applies. -/
theorem C7_message_count_monotone_witness :
    (find_user exSt.db 42 7 = some exRow) ∧
    ((∃ row₁, find_user (track_activity exSt.db 42 7 11) 42 7 = some row₁ ∧
        exRow.message_count ≤ row₁.message_count) ∧
     (∃ row₂, find_user (update_captcha_status exSt.db 42 7 ("completed") 11) 42 7 =
        some row₂ ∧ exRow.message_count ≤ row₂.message_count)) :=
  ⟨by decide,
    C7_message_count_monotone exSt.db 42 7 ("completed") 11 42 7 exRow (by decide)⟩

/-- Counterexample to C7 as stated: after one tracked message the row of
(1, 2) has message_count 1, and the store operation `add_user` (the upsert)
then makes it 0 — an operation of the store made message_count smaller. -/
theorem C7_upsert_resets_count_cex :
    ((find_user (track_activity (add_user ⟨[], []⟩ 1 ("u") 2 0) 1 2 1) 1 2).map
      UserRow.message_count = some 1) ∧
    ((find_user (add_user (track_activity (add_user ⟨[], []⟩ 1 ("u") 2 0) 1 2 1)
        1 ("u") 2 2) 1 2).map UserRow.message_count = some 0) := by
  decide

/-- C8 (amended): when no users row exists for the pair, `track_activity`
leaves the users table unchanged (the UPDATE matches no row) — but it still
appends a `message_sent` entry to the activity log, so the durable state is
not left fully unchanged (and nothing logs the miss). -/
theorem C8_record_activity_missing_row (db : Database) (u c : Int) (now : Nat)
    (hnone : find_user db u c = none) :
    (track_activity db u c now).users = db.users ∧
    (track_activity db u c now).activity_log =
      db.activity_log ++ [⟨u, c, "message_sent", now⟩] := by
  constructor
  · unfold track_activity
    dsimp only
    have hnomatch := List.find?_eq_none.mp hnone
    have hid : db.users.map (fun r =>
        if rowKey u c r then
          { r with last_activity := now, message_count := r.message_count + 1 }
        else r) = db.users.map id := by
      apply List.map_congr_left
      intro r hr
      rw [if_neg (hnomatch r hr), id]
    rw [hid, List.map_id]
  · rfl

/-- Witness for C8 at a concrete input: the empty store has no row for
(5, 6) and the theorem applies. -/
theorem C8_record_activity_missing_row_witness :
    (find_user (⟨[], []⟩ : Database) 5 6 = none) ∧
    ((track_activity (⟨[], []⟩ : Database) 5 6 3).users = [] ∧
     (track_activity (⟨[], []⟩ : Database) 5 6 3).activity_log =
       [⟨5, 6, "message_sent", 3⟩]) :=
  ⟨by decide, C8_record_activity_missing_row ⟨[], []⟩ 5 6 3 (by decide)⟩

/-- Counterexample to C8 as stated: with no users row at all, one
`track_activity` call appends a `message_sent` activity-log entry — the
durable state is NOT left unchanged and something was appended. -/
theorem C8_appends_log_cex :
    (find_user (⟨[], []⟩ : Database) 5 6 = none) ∧
    (track_activity (⟨[], []⟩ : Database) 5 6 3).activity_log =
      [⟨5, 6, "message_sent", 3⟩] ∧
    (track_activity (⟨[], []⟩ : Database) 5 6 3).activity_log ≠
      (⟨[], []⟩ : Database).activity_log := by
  decide

/-- C9: in a sweeper cycle, a session for which either Gateway action fails
(the delete raises, or the delete succeeds and the kick raises — for every
snapshot entry carrying this session's user and chat) is not removed from
the registry: it is still present after the cycle, to be retried next
cycle. -/
theorem C9_failed_gateway_retains_session (gw : Gateway) (st : BotState)
    (current_time max_captcha_time : Nat) (k : Int) (info : CaptchaInfo)
    (hmem : (k, info) ∈ st.user_captcha)
    (hfail : ∀ j ∈ st.user_captcha.map Prod.snd,
      j.user_id = info.user_id → j.chat_id = info.chat_id →
        ¬(gw.delete_ok j.chat_id j.message_id = true ∧
          gw.kick_ok j.chat_id j.user_id = true)) :
    (k, info) ∈
      (check_captcha_timeout_cycle gw current_time max_captcha_time st).1.user_captcha := by
  have main : ∀ l : List CaptchaInfo,
      (∀ j ∈ l, j ∈ st.user_captcha.map Prod.snd) →
      ∀ acc : BotState × List Action, (k, info) ∈ acc.1.user_captcha →
        (k, info) ∈
          (l.foldl (check_captcha_step gw current_time max_captcha_time)
            acc).1.user_captcha := by
    intro l
    induction l with
    | nil => exact fun _ _ h => h
    | cons j l ih =>
      intro hsub acc hacc
      rw [List.foldl_cons]
      apply ih (fun x hx => hsub x (List.mem_cons_of_mem _ hx))
      unfold check_captcha_step
      split_ifs with h1 h2 h3
      · apply List.mem_filter.mpr
        refine ⟨hacc, ?_⟩
        have hj := hsub j (List.mem_cons_self _ _)
        by_cases hu : info.user_id = j.user_id
        · by_cases hc : info.chat_id = j.chat_id
          · exact absurd ⟨h2, h3⟩ (hfail j hj hu.symm hc.symm)
          · simp [hc]
        · simp [hu]
      · exact hacc
      · exact hacc
      · exact hacc
  exact main (st.user_captcha.map Prod.snd) (fun _ hx => hx) (st, []) hmem

/-- Witness for C9 at a concrete input: the delete of user 42's challenge
message always raises, so after the cycle the expired session is still in
the registry. -/
theorem C9_failed_gateway_retains_session_witness :
    ((42, exInfo) ∈ exSt.user_captcha) ∧
    (∀ j ∈ exSt.user_captcha.map Prod.snd,
      j.user_id = exInfo.user_id → j.chat_id = exInfo.chat_id →
        ¬(gwDeleteFails.delete_ok j.chat_id j.message_id = true ∧
          gwDeleteFails.kick_ok j.chat_id j.user_id = true)) ∧
    (42, exInfo) ∈
      (check_captcha_timeout_cycle gwDeleteFails 1000 300 exSt).1.user_captcha :=
  ⟨by decide, by decide,
    C9_failed_gateway_retains_session gwDeleteFails exSt 1000 300 42 exInfo
      (by decide) (by decide)⟩

/-- C10 (amended): every store write is atomic — a failure at any of its
statements (either INSERT/UPDATE or the commit) rolls the whole call back,
leaving both tables exactly as before, and a failure-free call commits the
full effect; but the except-clause only logs: the call returns normally
either way, so no error is reported to the caller. -/
theorem C10_rollback_swallows (db : Database) (u : Int) (name : String) (c : Int)
    (status : String) (now : Nat) (k : Nat) :
    ((add_user_tx db u name c now (some k)).db = db ∧
     (track_activity_tx db u c now (some k)).db = db ∧
     (update_captcha_status_tx db u c status now (some k)).db = db) ∧
    ((add_user_tx db u name c now none).db = add_user db u name c now ∧
     (track_activity_tx db u c now none).db = track_activity db u c now ∧
     (update_captcha_status_tx db u c status now none).db =
       update_captcha_status db u c status now) ∧
    ((add_user_tx db u name c now (some k)).raised = false ∧
     (track_activity_tx db u c now (some k)).raised = false ∧
     (update_captcha_status_tx db u c status now (some k)).raised = false) :=
  ⟨⟨rfl, rfl, rfl⟩, ⟨rfl, rfl, rfl⟩, ⟨rfl, rfl, rfl⟩⟩

/-- Counterexample to C10 as stated: a failing `add_user` call rolls back
(the database is unchanged) but raises nothing to its caller — the error is
swallowed after logging, not reported. -/
theorem C10_error_swallowed_cex :
    (add_user_tx exSt.db 8 ("x") 9 4 (some 0)).db = exSt.db ∧
    (add_user_tx exSt.db 8 ("x") 9 4 (some 0)).raised = false := by
  decide

end Bircapcha
